import Mathlib

/-!
Verification of the deep-research web-search agent.

The development shallowly embeds the TypeScript sources:
* `src/src/llm.ts` — the `NosanaLLM` language-model client (OpenAI-compatible
  endpoint with native-Ollama protocol fallback) and the `BrightDataScraper`
  search client;
* `src/unnamed/part_001` — the `WebSearchTool` retrieval tool;
* `src/unnamed/part_002` — the `WebSearchAgent` pipeline
  (validate, classify, extract, retrieve, synthesize).

JavaScript runtime values that flow through the clients are modelled by
`JsVal`; JavaScript member access (which throws a `TypeError` on
`undefined`/`null` receivers and yields `undefined` on absent fields) is
modelled by `jsGet`/`jsIndex` returning `Except`.  Each axios call is
abstracted by its observable outcome `AxiosResult` (a 2xx response with a
parsed body, an HTTP error response, a sent-but-unanswered request, or a
request-construction failure); the client functions take the outcome of every
call they may issue and additionally report how many fallback calls were made,
so call-count claims become statements about those counters and traces.
-/

/-- A JavaScript runtime value: `undefined`, `null`, booleans, numbers
(integer-valued, sufficient for the code under study), strings, arrays and
objects (association lists of fields). -/
inductive JsVal where
  | vundef : JsVal
  | vnull : JsVal
  | vbool : Bool → JsVal
  | vnum : Int → JsVal
  | vstr : String → JsVal
  | varr : List JsVal → JsVal
  | vobj : List (String × JsVal) → JsVal

/-- First-match field lookup in an object literal; absent fields are
`undefined`, as in JavaScript. -/
def lookupField : List (String × JsVal) → String → JsVal
  | [], _ => JsVal.vundef
  | (k, v) :: t, f => if k = f then v else lookupField t f

/-- JavaScript truthiness: `undefined`, `null`, `false`, `0` and `""` are
falsy; every array and object is truthy. -/
def jsFalsy : JsVal → Bool
  | JsVal.vundef => true
  | JsVal.vnull => true
  | JsVal.vbool b => !b
  | JsVal.vnum n => n == 0
  | JsVal.vstr s => s.isEmpty
  | JsVal.varr _ => false
  | JsVal.vobj _ => false

/-- `Object.keys(v).length`: number of own enumerable keys (fields of an
object, indices of an array, character positions of a string, none for other
primitives). -/
def objectKeysLength : JsVal → Nat
  | JsVal.vobj l => l.length
  | JsVal.varr l => l.length
  | JsVal.vstr s => s.length
  | _ => 0

/-- Member access `v.f` in JavaScript: throws a `TypeError` when the receiver
is `undefined` or `null`, looks the field up on objects, and yields
`undefined` on other receivers (no own properties are modelled there). -/
def jsGet : JsVal → String → Except String JsVal
  | JsVal.vundef, f =>
      Except.error (("Cannot read properties of undefined (reading ") ++ f ++ (")"))
  | JsVal.vnull, f =>
      Except.error (("Cannot read properties of null (reading ") ++ f ++ (")"))
  | JsVal.vobj l, f => Except.ok (lookupField l f)
  | _, _ => Except.ok JsVal.vundef

/-- Index access `v[i]` in JavaScript: throws a `TypeError` when the receiver
is `undefined` or `null`, out-of-range array reads yield `undefined`. -/
def jsIndex : JsVal → Nat → Except String JsVal
  | JsVal.vundef, i =>
      Except.error (("Cannot read properties of undefined (reading ") ++ toString i ++ (")"))
  | JsVal.vnull, i =>
      Except.error (("Cannot read properties of null (reading ") ++ toString i ++ (")"))
  | JsVal.varr l, i => Except.ok ((l.get? i).getD JsVal.vundef)
  | JsVal.vobj l, i => Except.ok (lookupField l (toString i))
  | _, _ => Except.ok JsVal.vundef

/-- Non-throwing member access, used where the code has already established
the receiver to be truthy (hence neither `undefined` nor `null`). -/
def jsProp : JsVal → String → JsVal
  | JsVal.vobj l, f => lookupField l f
  | _, _ => JsVal.vundef

mutual

/-- `JSON.stringify` on tree-shaped values (the indentation argument of the
source is immaterial to every claim and is not reproduced). -/
def jsonStringify : JsVal → String
  | JsVal.vundef => ("null")
  | JsVal.vnull => ("null")
  | JsVal.vbool b => if b then ("true") else ("false")
  | JsVal.vnum n => toString n
  | JsVal.vstr s => ("\"") ++ s ++ ("\"")
  | JsVal.varr l => ("[") ++ jsonStringifyElems l ++ ("]")
  | JsVal.vobj l => ("\x7b") ++ jsonStringifyFields l ++ ("\x7d")

/-- Comma-separated serialization of array elements. -/
def jsonStringifyElems : List JsVal → String
  | [] => ("")
  | [v] => jsonStringify v
  | v :: w :: t => jsonStringify v ++ (",") ++ jsonStringifyElems (w :: t)

/-- Comma-separated serialization of object fields. -/
def jsonStringifyFields : List (String × JsVal) → String
  | [] => ("")
  | [(k, v)] => ("\"") ++ k ++ ("\":") ++ jsonStringify v
  | (k, v) :: w :: t =>
      ("\"") ++ k ++ ("\":") ++ jsonStringify v ++ (",") ++ jsonStringifyFields (w :: t)

end

/-- The observable outcome of one axios call: a 2xx response carrying the
parsed body, an HTTP error response (status, parsed error body, axios error
message), a request that was sent but got no response, or a failure before
the request was sent. -/
inductive AxiosResult where
  | ok : JsVal → AxiosResult
  | errResponse : Nat → JsVal → String → AxiosResult
  | errRequest : String → AxiosResult
  | errSetup : String → AxiosResult

/-- The observable outcome of one `NosanaLLM` method call: a returned value
(the TypeScript annotation says `string`, but the runtime value is whatever
the field access produced, possibly `undefined`), or a thrown `Error` with
its message. -/
inductive LLMResult where
  | ok : JsVal → LLMResult
  | thrown : String → LLMResult

namespace NosanaLLM

/-- `response.data.choices[0].message.content` — the access path both
`generate` and `chat` index on a successful primary response
(`llm.ts` lines 50 and 135). -/
def extractChatContent (data : JsVal) : Except String JsVal := do
  let choices ← jsGet data ("choices")
  let c0 ← jsIndex choices 0
  let message ← jsGet c0 ("message")
  jsGet message ("content")

/-- The fixed message thrown when the native-Ollama generate fallback fails
(`llm.ts` line 105). -/
def bothFailedMsg : String :=
  ("Both API formats failed. Check Nosana documentation for correct endpoint.")

/-- `NosanaLLM.generateNativeOllama` (`llm.ts` lines 81–107): POST
`{base}/api/generate` and return `response.data.response`; any failure inside
the `try` (HTTP error, network failure, or a `TypeError` from the field
access) is caught and re-thrown as the fixed `bothFailedMsg`. -/
def generateNativeOllama (r : AxiosResult) : LLMResult :=
  match r with
  | AxiosResult.ok data =>
      match jsGet data ("response") with
      | Except.ok v => LLMResult.ok v
      | Except.error _ => LLMResult.thrown bothFailedMsg
  | _ => LLMResult.thrown bothFailedMsg

/-- `NosanaLLM.chatNativeOllama` (`llm.ts` lines 159–182): POST
`{base}/api/chat` and return `response.data.message.content`; any failure is
re-thrown as `Native chat also failed: {error.message}`. -/
def chatNativeOllama (r : AxiosResult) : LLMResult :=
  match r with
  | AxiosResult.ok data =>
      match (do
        let m ← jsGet data ("message")
        jsGet m ("content") : Except String JsVal) with
      | Except.ok v => LLMResult.ok v
      | Except.error e => LLMResult.thrown (("Native chat also failed: ") ++ e)
  | AxiosResult.errResponse _ _ m => LLMResult.thrown (("Native chat also failed: ") ++ m)
  | AxiosResult.errRequest m => LLMResult.thrown (("Native chat also failed: ") ++ m)
  | AxiosResult.errSetup m => LLMResult.thrown (("Native chat also failed: ") ++ m)

/-- `NosanaLLM.generate` (`llm.ts` lines 20–76).  `primary` is the outcome of
the POST to `{base}/v1/chat/completions`; `fb` is the outcome of the POST to
`{base}/api/generate` should the fallback fire.  The second component counts
fallback calls issued.  On a 2xx primary response the client returns
`response.data.choices[0].message.content`; a `TypeError` raised by that
access is caught by the same `catch` and — having neither `.response` nor
`.request` — is re-thrown as `Request failed: …`.  HTTP 404/405 triggers the
single native-Ollama fallback; any other error status throws
`Nosana API Error {status}: {JSON.stringify(data)}`; an unanswered request
throws `No response from Nosana: …`. -/
def generate (primary : AxiosResult) (fb : AxiosResult) : LLMResult × Nat :=
  match primary with
  | AxiosResult.ok data =>
      match extractChatContent data with
      | Except.ok v => (LLMResult.ok v, 0)
      | Except.error e => (LLMResult.thrown (("Request failed: ") ++ e), 0)
  | AxiosResult.errResponse status data _ =>
      if status = 404 ∨ status = 405 then
        (generateNativeOllama fb, 1)
      else
        (LLMResult.thrown
          (("Nosana API Error ") ++ toString status ++ (": ") ++ jsonStringify data), 0)
  | AxiosResult.errRequest msg =>
      (LLMResult.thrown (("No response from Nosana: ") ++ msg), 0)
  | AxiosResult.errSetup msg =>
      (LLMResult.thrown (("Request failed: ") ++ msg), 0)

/-- `NosanaLLM.chat` (`llm.ts` lines 112–154).  Same shape as `generate`; its
`catch` distinguishes only `error.response` (404/405 → single fallback to the
native chat endpoint, otherwise `Chat API Error: {JSON.stringify(data)}`), and
every other error — including a `TypeError` from the content access on a 2xx
response — is re-thrown as `Chat request failed: …`. -/
def chat (primary : AxiosResult) (fb : AxiosResult) : LLMResult × Nat :=
  match primary with
  | AxiosResult.ok data =>
      match extractChatContent data with
      | Except.ok v => (LLMResult.ok v, 0)
      | Except.error e => (LLMResult.thrown (("Chat request failed: ") ++ e), 0)
  | AxiosResult.errResponse status data _ =>
      if status = 404 ∨ status = 405 then
        (chatNativeOllama fb, 1)
      else
        (LLMResult.thrown (("Chat API Error: ") ++ jsonStringify data), 0)
  | AxiosResult.errRequest msg =>
      (LLMResult.thrown (("Chat request failed: ") ++ msg), 0)
  | AxiosResult.errSetup msg =>
      (LLMResult.thrown (("Chat request failed: ") ++ msg), 0)

/-- URL and body of the POST issued by `generateNativeOllama`
(`llm.ts` lines 82–93). -/
def generateNativeOllamaRequest (base model prompt : String) : String × JsVal :=
  (base ++ ("/api/generate"),
   JsVal.vobj
     [(("model"), JsVal.vstr model),
      (("prompt"), JsVal.vstr prompt),
      (("stream"), JsVal.vbool false)])

/-- A chat message `{role, content}`. -/
structure ChatMessage where
  role : String
  content : String
deriving DecidableEq, Repr

/-- JSON encoding of a chat message. -/
def messageToJs (m : ChatMessage) : JsVal :=
  JsVal.vobj [(("role"), JsVal.vstr m.role), (("content"), JsVal.vstr m.content)]

/-- URL and body of the POST issued by `chatNativeOllama`
(`llm.ts` lines 160–169). -/
def chatNativeOllamaRequest (base model : String) (messages : List ChatMessage) :
    String × JsVal :=
  (base ++ ("/api/chat"),
   JsVal.vobj
     [(("model"), JsVal.vstr model),
      (("messages"), JsVal.varr (messages.map messageToJs)),
      (("stream"), JsVal.vbool false)])

end NosanaLLM

namespace BrightDataScraper

/-- `BrightDataScraper.searchWeb` (`llm.ts` lines 251–301).  On a 2xx
response: an absent/falsy `response.data` yields `{}`; otherwise, when
`response.data.body` is truthy it is returned, else the full `response.data`.
The `catch` block logs and returns `{}` for every thrown error — HTTP error
responses of any status (401 included), unanswered requests, and setup
failures alike. -/
def searchWeb (r : AxiosResult) : JsVal :=
  match r with
  | AxiosResult.ok data =>
      if jsFalsy data then JsVal.vobj []
      else
        let body := jsProp data ("body")
        if jsFalsy body then data else body
  | AxiosResult.errResponse _ _ _ => JsVal.vobj []
  | AxiosResult.errRequest _ => JsVal.vobj []
  | AxiosResult.errSetup _ => JsVal.vobj []

/-- Whether a value is an object carrying an `error` field — the shape of the
`{error: description}` failure value the specification describes. -/
def hasErrorField : JsVal → Bool
  | JsVal.vobj l => l.any (fun p => p.1 == ("error"))
  | _ => false

end BrightDataScraper

/-- `haystack.includes(needle)` on character lists: true exactly when some
suffix of the haystack starts with the needle. -/
def hasSubList (pat : List Char) : List Char → Bool
  | [] => pat.isEmpty
  | c :: t => pat.isPrefixOf (c :: t) || hasSubList pat t

/-- `String.prototype.includes`: substring containment. -/
def strIncludes (s pat : String) : Bool :=
  hasSubList pat.data s.data

/-- `String.prototype.trim`: strip leading and trailing whitespace.  Defined
by list recursion over the characters so that it evaluates by kernel
reduction. -/
def jsTrim (s : String) : String :=
  String.mk (((s.data.dropWhile Char.isWhitespace).reverse.dropWhile Char.isWhitespace).reverse)

/-- `String.prototype.toLowerCase`, character by character. -/
def jsToLowerCase (s : String) : String :=
  String.mk (s.data.map Char.toLower)

/-- `String.prototype.startsWith`. -/
def jsStartsWith (s pre : String) : Bool :=
  pre.data.isPrefixOf s.data

namespace WebSearchTool

/-- `WebSearchTool._call` (`part_001` lines 15–43), parametrised by the
scraper (`query ↦ parsed result`).  Returns the string handed back to the
agent together with the list of queries actually sent to the scraper.  An
empty/whitespace-only input is rejected before any scraper call; otherwise
the scraper is called once with the trimmed input, a falsy or key-less result
becomes the fixed no-results sentinel, and any other result is
`JSON.stringify`-ed.  (The stringify `catch` branch is unreachable for the
tree-shaped values modelled here, as it is for parsed JSON in the source.) -/
def call (scrape : String → JsVal) (query : String) : String × List String :=
  if (jsTrim query).isEmpty then
    (("Error: Invalid search query provided."), [])
  else
    let trimmedQuery := jsTrim query
    let results := scrape trimmedQuery
    if jsFalsy results ∨ objectKeysLength results = 0 then
      (("No results found."), [trimmedQuery])
    else
      (jsonStringify results, [trimmedQuery])

end WebSearchTool

namespace WebSearchAgent

/-- The classification prompt (`part_002` lines 61–65; the second line of the
template literal consists of four spaces coming from the source
indentation). -/
def shouldSearchPrompt (query : String) : String :=
  ("Does this question require searching the web for current information? Answer only YES or NO.\n    \nQuestion: ")
    ++ query ++ ("\n\nAnswer:")

/-- The decision rule of `WebSearchAgent.shouldSearch` (`part_002` line 69):
`response.toLowerCase().includes("yes")`. -/
def shouldSearchDecision (response : String) : Bool :=
  strIncludes (jsToLowerCase response) ("yes")

/-- The extraction prompt (`part_002` lines 78–82). -/
def extractQueryPrompt (query : String) : String :=
  ("Extract a concise search query (3-6 words) from this question:\n\nQuestion: ")
    ++ query ++ ("\n\nSearch query:")

/-- The synthesis-stage system message (`part_002` line 114). -/
def systemMessage : String :=
  ("You are a helpful AI assistant that answers questions based on search results. Be concise and accurate.")

/-- The RAG user-message template (`part_002` lines 104–111). -/
def ragPrompt (originalQuery searchResults : String) : String :=
  ("Based on the following search results, answer the user\u0027s question accurately and concisely.\n\nUser Question: ")
    ++ originalQuery ++ ("\n\nSearch Results:\n") ++ searchResults ++ ("\n\nAnswer:")

/-- The fixed apology returned when retrieval failed (`part_002` line 101). -/
def apologyMessage (originalQuery : String) : String :=
  ("I couldn\u0027t find information about \"") ++ originalQuery
    ++ ("\" due to a search error. Please try rephrasing your question.")

/-- The messages handed to `llm.chat` by the synthesis stage
(`part_002` lines 113–116). -/
def ragMessages (originalQuery searchResults : String) : List NosanaLLM.ChatMessage :=
  [{ role := ("system"), content := systemMessage },
   { role := ("user"), content := ragPrompt originalQuery searchResults }]

/-- `WebSearchAgent.generateAnswer` (`part_002` lines 94–121), parametrised
by the chat client.  Returns the answer string and the list of chat calls
made.  A serialized retrieval text that starts with `Error:` or equals the
no-results sentinel short-circuits to the apology without calling the model;
anything else goes through `llm.chat` with the fixed system message and the
RAG template, whose output is returned unchanged. -/
def generateAnswer (chatFn : List NosanaLLM.ChatMessage → String)
    (originalQuery searchResults : String) :
    String × List (List NosanaLLM.ChatMessage) :=
  if jsStartsWith searchResults ("Error:") ∨ searchResults = ("No results found.") then
    (apologyMessage originalQuery, [])
  else
    (chatFn (ragMessages originalQuery searchResults),
     [ragMessages originalQuery searchResults])

/-- The collaborators of one `run` invocation: the language-model client
(`prompt ↦ response` for `generate`, `messages ↦ response` for `chat`) and
the scraper (`query ↦ parsed result`). -/
structure AgentOracle where
  gen : String → String
  chatFn : List NosanaLLM.ChatMessage → String
  scrape : String → JsVal

/-- What one `run` invocation produced: the returned string, the prompts sent
through `llm.generate` (in order), the message lists sent through `llm.chat`,
and the queries sent to the scraper. -/
structure RunTrace where
  result : String
  genPrompts : List String
  chatCalls : List (List NosanaLLM.ChatMessage)
  searchCalls : List String

/-- `WebSearchAgent.run` (`part_002` lines 15–56): validate the user query,
classify via `shouldSearch`, either answer directly with
`llm.generate(userQuery)` or extract a search query (trimmed), reject an
empty extraction, run the search tool on the trimmed extraction and
synthesize the final answer with `generateAnswer`. -/
def run (o : AgentOracle) (userQuery : String) : RunTrace :=
  if (jsTrim userQuery).isEmpty then
    { result := ("Error: Invalid query provided."),
      genPrompts := [], chatCalls := [], searchCalls := [] }
  else
    let classifyP := shouldSearchPrompt userQuery
    let needsSearch := shouldSearchDecision (o.gen classifyP)
    if needsSearch = false then
      { result := o.gen userQuery,
        genPrompts := [classifyP, userQuery], chatCalls := [], searchCalls := [] }
    else
      let extractP := extractQueryPrompt userQuery
      let searchQuery := jsTrim (o.gen extractP)
      if (jsTrim searchQuery).isEmpty then
        { result := ("Error: Could not extract a valid search query."),
          genPrompts := [classifyP, extractP], chatCalls := [], searchCalls := [] }
      else
        let tc := WebSearchTool.call o.scrape (jsTrim searchQuery)
        let ga := generateAnswer o.chatFn userQuery tc.1
        { result := ga.1,
          genPrompts := [classifyP, extractP], chatCalls := ga.2, searchCalls := tc.2 }

end WebSearchAgent

/-- `hasSubList` is substring containment: it holds exactly when the haystack
splits as `pre ++ pat ++ post`. -/
theorem hasSubList_iff_exists (pat l : List Char) :
    hasSubList pat l = true ↔ ∃ pre post : List Char, l = pre ++ pat ++ post := by
  induction l with
  | nil =>
      simp only [hasSubList, List.isEmpty_iff]
      constructor
      · rintro rfl
        exact ⟨[], [], rfl⟩
      · rintro ⟨pre, post, h⟩
        rcases List.append_eq_nil.mp h.symm with ⟨h1, h2⟩
        rcases List.append_eq_nil.mp h1 with ⟨-, h3⟩
        exact h3
  | cons c t ih =>
      simp only [hasSubList, Bool.or_eq_true, List.isPrefixOf_iff_prefix, ih]
      constructor
      · rintro (⟨post, hp⟩ | ⟨pre, post, h⟩)
        · exact ⟨[], post, by simpa using hp.symm⟩
        · exact ⟨c :: pre, post, by simp [h]⟩
      · rintro ⟨pre, post, h⟩
        match pre, h with
        | [], h => exact Or.inl ⟨post, by simpa using h.symm⟩
        | p :: ps, h =>
            rcases List.cons_eq_cons.mp h with ⟨rfl, h2⟩
            exact Or.inr ⟨ps, post, h2⟩

/-- C1: when the primary POST to `{base}/v1/chat/completions` fails with HTTP
404 or 405, both `generate` and `chat` issue exactly one fallback call to the
secondary endpoint and return its parsed content; for any other HTTP error
status no fallback is attempted and the error propagates immediately; and a
failure of the fallback call itself is fatal for that call, with no further
retries. -/
theorem nosana_protocol_fallback (status : Nat) (data : JsVal) (emsg : String)
    (fb : AxiosResult) :
    (status = 404 ∨ status = 405 →
        NosanaLLM.generate (AxiosResult.errResponse status data emsg) fb
            = (NosanaLLM.generateNativeOllama fb, 1)
        ∧ NosanaLLM.chat (AxiosResult.errResponse status data emsg) fb
            = (NosanaLLM.chatNativeOllama fb, 1))
    ∧ (status ≠ 404 → status ≠ 405 →
        NosanaLLM.generate (AxiosResult.errResponse status data emsg) fb
            = (LLMResult.thrown
                (("Nosana API Error ") ++ toString status ++ (": ") ++ jsonStringify data), 0)
        ∧ NosanaLLM.chat (AxiosResult.errResponse status data emsg) fb
            = (LLMResult.thrown (("Chat API Error: ") ++ jsonStringify data), 0))
    ∧ (∀ (v : JsVal) (rest : List (String × JsVal)),
        NosanaLLM.generateNativeOllama
            (AxiosResult.ok (JsVal.vobj ((("response"), v) :: rest)))
          = LLMResult.ok v)
    ∧ (∀ (s2 : Nat) (d2 : JsVal) (m2 : String),
        NosanaLLM.generateNativeOllama (AxiosResult.errResponse s2 d2 m2)
            = LLMResult.thrown NosanaLLM.bothFailedMsg
        ∧ NosanaLLM.chatNativeOllama (AxiosResult.errResponse s2 d2 m2)
            = LLMResult.thrown (("Native chat also failed: ") ++ m2)) := by
  refine ⟨?_, ?_, ?_, ?_⟩
  · rintro (rfl | rfl) <;> exact ⟨rfl, rfl⟩
  · intro h4 h5
    constructor <;> simp [NosanaLLM.generate, NosanaLLM.chat, h4, h5]
  · intro v rest
    simp [NosanaLLM.generateNativeOllama, jsGet, lookupField]
  · intro s2 d2 m2
    exact ⟨rfl, rfl⟩

/-- C1 witness: at HTTP 404 with a fallback response carrying a `response`
field, `generate` delegates to the single fallback call. -/
theorem nosana_protocol_fallback_witness :
    NosanaLLM.generate
        (AxiosResult.errResponse 404 (JsVal.vobj []) ("e"))
        (AxiosResult.ok (JsVal.vobj [(("response"), JsVal.vstr ("ok"))]))
      = (NosanaLLM.generateNativeOllama
          (AxiosResult.ok (JsVal.vobj [(("response"), JsVal.vstr ("ok"))])), 1) :=
  ((nosana_protocol_fallback 404 (JsVal.vobj []) ("e")
      (AxiosResult.ok (JsVal.vobj [(("response"), JsVal.vstr ("ok"))]))).1
    (Or.inl rfl)).1

/-- C2: the classification decision lower-cases the model response and tests
for the substring `yes`; responses containing it (in any case or position,
including `Yes, because it's current` and `yesterday`) make the pipeline take
the retrieval path, and responses without it (including `No.` and
`Not needed`) make it take the direct-answer path. -/
theorem classification_substring_rule :
    (∀ response : String,
        WebSearchAgent.shouldSearchDecision response = true ↔
          ∃ pre post : List Char,
            (jsToLowerCase response).data = pre ++ ("yes").data ++ post)
    ∧ WebSearchAgent.shouldSearchDecision ("Yes, because it's current") = true
    ∧ WebSearchAgent.shouldSearchDecision ("yesterday") = true
    ∧ WebSearchAgent.shouldSearchDecision ("No.") = false
    ∧ WebSearchAgent.shouldSearchDecision ("Not needed") = false
    ∧ (∀ (o : WebSearchAgent.AgentOracle) (q : String),
        (jsTrim q).isEmpty = false →
        (WebSearchAgent.shouldSearchDecision
            (o.gen (WebSearchAgent.shouldSearchPrompt q)) = true →
          (WebSearchAgent.run o q).genPrompts
            = [WebSearchAgent.shouldSearchPrompt q, WebSearchAgent.extractQueryPrompt q])
        ∧ (WebSearchAgent.shouldSearchDecision
            (o.gen (WebSearchAgent.shouldSearchPrompt q)) = false →
          (WebSearchAgent.run o q).genPrompts
            = [WebSearchAgent.shouldSearchPrompt q, q]
          ∧ (WebSearchAgent.run o q).searchCalls = [])) := by
  refine ⟨?_, by decide, by decide, by decide, by decide, ?_⟩
  · intro response
    simpa only [WebSearchAgent.shouldSearchDecision, strIncludes] using
      hasSubList_iff_exists (("yes").data) ((jsToLowerCase response).data)
  · intro o q h1
    constructor
    · intro h2
      simp [WebSearchAgent.run, h1, h2, apply_ite WebSearchAgent.RunTrace.genPrompts]
    · intro h2
      simp [WebSearchAgent.run, h1, h2]

/-- C2 witness: concrete routings through `run` on both classification
outcomes. -/
theorem classification_substring_rule_witness :
    ((WebSearchAgent.run
        { gen := fun _ => ("YES"), chatFn := fun _ => ("a"),
          scrape := fun _ => JsVal.vobj [] } ("w")).genPrompts
      = [WebSearchAgent.shouldSearchPrompt ("w"), WebSearchAgent.extractQueryPrompt ("w")])
    ∧ (WebSearchAgent.run
        { gen := fun _ => ("No."), chatFn := fun _ => ("a"),
          scrape := fun _ => JsVal.vobj [] } ("w")).searchCalls = [] := by
  constructor
  · exact ((classification_substring_rule.2.2.2.2.2
      { gen := fun _ => ("YES"), chatFn := fun _ => ("a"),
        scrape := fun _ => JsVal.vobj [] } ("w")) (by decide)).1 (by decide)
  · exact (((classification_substring_rule.2.2.2.2.2
      { gen := fun _ => ("No."), chatFn := fun _ => ("a"),
        scrape := fun _ => JsVal.vobj [] } ("w")) (by decide)).2 (by decide)).2

/-- C3: for every empty or whitespace-only query, `run` returns the
user-facing invalid-query error (the surface form of `InvalidQueryError`)
without issuing any call to the language-model client or the search
client. -/
theorem run_invalid_query (o : WebSearchAgent.AgentOracle) (q : String)
    (h : (jsTrim q).isEmpty = true) :
    WebSearchAgent.run o q =
      { result := ("Error: Invalid query provided."),
        genPrompts := [], chatCalls := [], searchCalls := [] } := by
  simp [WebSearchAgent.run, h]

/-- C3 witness: a whitespace-only query is rejected with no upstream call. -/
theorem run_invalid_query_witness :
    WebSearchAgent.run
        { gen := fun _ => ("g"), chatFn := fun _ => ("c"),
          scrape := fun _ => JsVal.vobj [] } ("   ") =
      { result := ("Error: Invalid query provided."),
        genPrompts := [], chatCalls := [], searchCalls := [] } :=
  run_invalid_query
    { gen := fun _ => ("g"), chatFn := fun _ => ("c"),
      scrape := fun _ => JsVal.vobj [] } ("   ") (by decide)

/-- C4: in the synthesis stage, a serialized retrieval text that equals the
no-results sentinel or starts with `Error:` skips the model call and yields
the fixed apology — which names the original query and the failure reason
(`search error`); any other retrieval text is sent through `chat` with the
fixed system message and the RAG user-message template, and the chat output
is returned verbatim. -/
theorem synthesis_stage_behavior (chatFn : List NosanaLLM.ChatMessage → String)
    (q sr : String) :
    ((jsStartsWith sr ("Error:") = true ∨ sr = ("No results found.")) →
        WebSearchAgent.generateAnswer chatFn q sr
          = (WebSearchAgent.apologyMessage q, []))
    ∧ (jsStartsWith sr ("Error:") = false → sr ≠ ("No results found.") →
        WebSearchAgent.generateAnswer chatFn q sr
          = (chatFn (WebSearchAgent.ragMessages q sr),
             [WebSearchAgent.ragMessages q sr]))
    ∧ WebSearchAgent.apologyMessage q
        = ("I couldn't find information about \"") ++ q
            ++ ("\" due to a search error. Please try rephrasing your question.")
    ∧ (∃ pre post : String, WebSearchAgent.apologyMessage q = pre ++ q ++ post)
    ∧ strIncludes (WebSearchAgent.apologyMessage q) ("search error") = true := by
  refine ⟨?_, ?_, rfl, ⟨_, _, rfl⟩, ?_⟩
  · intro h
    simp [WebSearchAgent.generateAnswer, h]
  · intro h1 h2
    simp [WebSearchAgent.generateAnswer, h1, h2]
  · apply (hasSubList_iff_exists _ _).mpr
    refine ⟨(("I couldn't find information about \"") ++ q ++ ("\" due to a ")).data,
            ((". Please try rephrasing your question.")).data, ?_⟩
    simp only [WebSearchAgent.apologyMessage, String.data_append, List.append_assoc]
    simp

/-- C4 witness: the sentinel short-circuits to the apology; ordinary
retrieval text goes through `chat` and is returned unchanged. -/
theorem synthesis_stage_behavior_witness :
    WebSearchAgent.generateAnswer (fun _ => ("synth")) ("q1") ("No results found.")
        = (WebSearchAgent.apologyMessage ("q1"), [])
    ∧ WebSearchAgent.generateAnswer (fun _ => ("synth")) ("q1") ("some results")
        = (("synth"), [WebSearchAgent.ragMessages ("q1") ("some results")]) :=
  ⟨(synthesis_stage_behavior (fun _ => ("synth")) ("q1") ("No results found.")).1
      (Or.inr rfl),
   (synthesis_stage_behavior (fun _ => ("synth")) ("q1") ("some results")).2.1
      (by decide) (by decide)⟩

/-- C5 counterexample: on HTTP 401 `searchWeb` returns the empty object —
the very same value it returns for HTTP 500 — and that value carries no
`error` field, so no distinguishable authentication-failure value and no
`{error: description}` value is produced. -/
theorem searchweb_error_shape_counterexample :
    BrightDataScraper.searchWeb
        (AxiosResult.errResponse 401 (JsVal.vstr ("unauthorized"))
          ("Request failed with status code 401")) = JsVal.vobj []
    ∧ BrightDataScraper.searchWeb
        (AxiosResult.errResponse 500 (JsVal.vstr ("server error"))
          ("Request failed with status code 500")) = JsVal.vobj []
    ∧ BrightDataScraper.hasErrorField
        (BrightDataScraper.searchWeb
          (AxiosResult.errResponse 401 (JsVal.vstr ("unauthorized"))
            ("Request failed with status code 401"))) = false :=
  ⟨rfl, rfl, rfl⟩

/-- C5 (amended): `searchWeb` never throws — every HTTP error status
(including 401), every unanswered request and every request-construction
failure yields the empty object, with no distinguished authentication-failure
value and no `{error: description}` value; on HTTP success a falsy body
yields the empty object, and otherwise the truthy `body` envelope field is
unwrapped, falling back to the full response data. -/
theorem searchweb_never_throws (status : Nat) (data errData : JsVal)
    (emsg : String) :
    BrightDataScraper.searchWeb (AxiosResult.errResponse status errData emsg)
        = JsVal.vobj []
    ∧ BrightDataScraper.searchWeb (AxiosResult.errRequest emsg) = JsVal.vobj []
    ∧ BrightDataScraper.searchWeb (AxiosResult.errSetup emsg) = JsVal.vobj []
    ∧ BrightDataScraper.hasErrorField
        (BrightDataScraper.searchWeb (AxiosResult.errResponse status errData emsg))
        = false
    ∧ (jsFalsy data = true →
        BrightDataScraper.searchWeb (AxiosResult.ok data) = JsVal.vobj [])
    ∧ (jsFalsy data = false → jsFalsy (jsProp data ("body")) = false →
        BrightDataScraper.searchWeb (AxiosResult.ok data) = jsProp data ("body"))
    ∧ (jsFalsy data = false → jsFalsy (jsProp data ("body")) = true →
        BrightDataScraper.searchWeb (AxiosResult.ok data) = data) := by
  refine ⟨rfl, rfl, rfl, rfl, ?_, ?_, ?_⟩
  · intro h
    simp [BrightDataScraper.searchWeb, h]
  · intro h1 h2
    simp [BrightDataScraper.searchWeb, h1, h2]
  · intro h1 h2
    simp [BrightDataScraper.searchWeb, h1, h2]

/-- C5 witness: a falsy 2xx body yields the empty object, and a 2xx body
with a truthy `body` envelope is unwrapped to that envelope. -/
theorem searchweb_never_throws_witness :
    BrightDataScraper.searchWeb (AxiosResult.ok JsVal.vnull) = JsVal.vobj []
    ∧ BrightDataScraper.searchWeb
        (AxiosResult.ok
          (JsVal.vobj [(("body"), JsVal.vobj [(("organic"), JsVal.varr [])])]))
        = JsVal.vobj [(("organic"), JsVal.varr [])] :=
  ⟨(searchweb_never_throws 200 JsVal.vnull JsVal.vnull ("")).2.2.2.2.1 (by decide),
   (searchweb_never_throws 200
      (JsVal.vobj [(("body"), JsVal.vobj [(("organic"), JsVal.varr [])])])
      JsVal.vnull ("")).2.2.2.2.2.1 (by decide) (by decide)⟩

/-- C6 counterexample: an HTTP-200 response whose body is the empty object is
not answered with a descriptive malformed-response error — the index failure
from `choices[0]` is re-wrapped into the generic request-failure message,
producing exactly the same outcome as a request-construction failure with
that message. -/
theorem malformed_response_counterexample :
    (NosanaLLM.generate (AxiosResult.ok (JsVal.vobj []))
        (AxiosResult.errSetup ("unused"))).1
      = (NosanaLLM.generate
          (AxiosResult.errSetup (("Cannot read properties of undefined (reading 0)")))
          (AxiosResult.errSetup ("unused"))).1
    ∧ (NosanaLLM.generate (AxiosResult.ok (JsVal.vobj []))
        (AxiosResult.errSetup ("unused"))).1
      = LLMResult.thrown
          (("Request failed: Cannot read properties of undefined (reading 0)")) :=
  ⟨rfl, rfl⟩

/-- C6 (amended): on an HTTP-200 response the client indexes
`choices[0].message.content` with no verification of the nested fields: when
an intermediate field is missing, the resulting index failure is re-wrapped
as the generic request-failure message (`generate`) or chat-request-failure
message (`chat`), indistinguishable from a request-construction failure with
the same text; when only the final `content` field is missing the client
returns the `undefined` value with no error at all; no separate
malformed-response error exists. -/
theorem no_defensive_response_parsing (data : JsVal) (fb : AxiosResult)
    (e : String) :
    (NosanaLLM.extractChatContent data = Except.error e →
        NosanaLLM.generate (AxiosResult.ok data) fb
            = (LLMResult.thrown (("Request failed: ") ++ e), 0)
        ∧ (NosanaLLM.generate (AxiosResult.ok data) fb).1
            = (NosanaLLM.generate (AxiosResult.errSetup e) fb).1
        ∧ NosanaLLM.chat (AxiosResult.ok data) fb
            = (LLMResult.thrown (("Chat request failed: ") ++ e), 0))
    ∧ (∀ v : JsVal, NosanaLLM.extractChatContent data = Except.ok v →
        NosanaLLM.generate (AxiosResult.ok data) fb = (LLMResult.ok v, 0)
        ∧ NosanaLLM.chat (AxiosResult.ok data) fb = (LLMResult.ok v, 0))
    ∧ NosanaLLM.generate
        (AxiosResult.ok (JsVal.vobj [(("choices"),
          JsVal.varr [JsVal.vobj [(("message"), JsVal.vobj [])]])])) fb
        = (LLMResult.ok JsVal.vundef, 0) := by
  refine ⟨?_, ?_, rfl⟩
  · intro h
    refine ⟨?_, ?_, ?_⟩ <;> simp [NosanaLLM.generate, NosanaLLM.chat, h]
  · intro v h
    constructor <;> simp [NosanaLLM.generate, NosanaLLM.chat, h]

/-- C6 amended witness: the empty-object 200 body produces the generic
request-failure wrap. -/
theorem no_defensive_response_parsing_witness :
    NosanaLLM.generate (AxiosResult.ok (JsVal.vobj [])) (AxiosResult.errSetup ("u"))
      = (LLMResult.thrown
          ((("Request failed: ")
            ++ ("Cannot read properties of undefined (reading 0)"))), 0) :=
  ((no_defensive_response_parsing (JsVal.vobj []) (AxiosResult.errSetup ("u"))
      (("Cannot read properties of undefined (reading 0)"))).1 rfl).1

/-- C7 counterexample: on a generate-fallback response carrying only a nested
`message.content` field (no `response` field), `generateNativeOllama` returns
the `undefined` value, not the nested content — the claimed fallback to
`message.content` does not exist. -/
theorem generate_fallback_extraction_counterexample :
    NosanaLLM.generateNativeOllama
        (AxiosResult.ok
          (JsVal.vobj [(("message"), JsVal.vobj [(("content"), JsVal.vstr ("hi"))])]))
      = LLMResult.ok JsVal.vundef
    ∧ LLMResult.ok JsVal.vundef ≠ LLMResult.ok (JsVal.vstr ("hi")) := by
  refine ⟨rfl, ?_⟩
  simp

/-- C7 (amended): on protocol fallback a single-prompt call POSTs
`{base}/api/generate` with body `{model, prompt, stream:false}` and extracts
only the `response` field — when that field is absent the `undefined` value
is returned, with no fallback to `message.content`; a multi-message call
POSTs `{base}/api/chat` with body `{model, messages, stream:false}` and
extracts `message.content`. -/
theorem native_fallback_requests (base model prompt : String)
    (messages : List NosanaLLM.ChatMessage) (v : JsVal)
    (rest rest2 : List (String × JsVal)) :
    (NosanaLLM.generateNativeOllamaRequest base model prompt).1
        = base ++ ("/api/generate")
    ∧ (NosanaLLM.generateNativeOllamaRequest base model prompt).2
        = JsVal.vobj
            [(("model"), JsVal.vstr model), (("prompt"), JsVal.vstr prompt),
             (("stream"), JsVal.vbool false)]
    ∧ (NosanaLLM.chatNativeOllamaRequest base model messages).1
        = base ++ ("/api/chat")
    ∧ (NosanaLLM.chatNativeOllamaRequest base model messages).2
        = JsVal.vobj
            [(("model"), JsVal.vstr model),
             (("messages"), JsVal.varr (messages.map NosanaLLM.messageToJs)),
             (("stream"), JsVal.vbool false)]
    ∧ NosanaLLM.generateNativeOllama
        (AxiosResult.ok (JsVal.vobj ((("response"), v) :: rest)))
        = LLMResult.ok v
    ∧ NosanaLLM.generateNativeOllama
        (AxiosResult.ok (JsVal.vobj [(("message"), JsVal.vobj [(("content"), v)])]))
        = LLMResult.ok JsVal.vundef
    ∧ NosanaLLM.chatNativeOllama
        (AxiosResult.ok
          (JsVal.vobj ((("message"), JsVal.vobj ((("content"), v) :: rest2)) :: rest)))
        = LLMResult.ok v := by
  refine ⟨rfl, rfl, rfl, rfl, ?_, rfl, ?_⟩
  · simp [NosanaLLM.generateNativeOllama, jsGet, lookupField]
  · simp [NosanaLLM.chatNativeOllama, jsGet, lookupField, bind, Except.bind]

/-- C8: whenever the extracted search query is empty after trimming, `run`
terminates with the extraction-failure error (the surface form of
`ExtractionFailedError`) and the search client is never invoked. -/
theorem run_extraction_failed (o : WebSearchAgent.AgentOracle) (q : String)
    (h1 : (jsTrim q).isEmpty = false)
    (h2 : WebSearchAgent.shouldSearchDecision
        (o.gen (WebSearchAgent.shouldSearchPrompt q)) = true)
    (h3 : (jsTrim (jsTrim (o.gen (WebSearchAgent.extractQueryPrompt q)))).isEmpty
        = true) :
    WebSearchAgent.run o q =
      { result := ("Error: Could not extract a valid search query."),
        genPrompts := [WebSearchAgent.shouldSearchPrompt q,
                       WebSearchAgent.extractQueryPrompt q],
        chatCalls := [], searchCalls := [] } := by
  simp [WebSearchAgent.run, h1, h2, h3]

/-- C8 witness: a whitespace-only extraction deterministically fails with no
search call. -/
theorem run_extraction_failed_witness :
    WebSearchAgent.run
        { gen := fun p => if p = WebSearchAgent.extractQueryPrompt ("w") then ("  ")
                          else ("YES"),
          chatFn := fun _ => ("c"), scrape := fun _ => JsVal.vobj [] } ("w") =
      { result := ("Error: Could not extract a valid search query."),
        genPrompts := [WebSearchAgent.shouldSearchPrompt ("w"),
                       WebSearchAgent.extractQueryPrompt ("w")],
        chatCalls := [], searchCalls := [] } :=
  run_extraction_failed
    { gen := fun p => if p = WebSearchAgent.extractQueryPrompt ("w") then ("  ")
                      else ("YES"),
      chatFn := fun _ => ("c"), scrape := fun _ => JsVal.vobj [] } ("w")
    (by decide) (by decide) (by decide)

/-- C9: whenever classification routes to direct-answer, `run` calls
`generate` with the original, unmodified query, returns that output as its
result, and neither the search client nor `chat` is ever invoked. -/
theorem run_direct_answer (o : WebSearchAgent.AgentOracle) (q : String)
    (h1 : (jsTrim q).isEmpty = false)
    (h2 : WebSearchAgent.shouldSearchDecision
        (o.gen (WebSearchAgent.shouldSearchPrompt q)) = false) :
    WebSearchAgent.run o q =
      { result := o.gen q,
        genPrompts := [WebSearchAgent.shouldSearchPrompt q, q],
        chatCalls := [], searchCalls := [] } := by
  simp [WebSearchAgent.run, h1, h2]

/-- C9 witness: a negative classification answers directly with no search
call. -/
theorem run_direct_answer_witness :
    WebSearchAgent.run
        { gen := fun _ => ("NO FROM MODEL"), chatFn := fun _ => ("c"),
          scrape := fun _ => JsVal.vobj [] } ("capital of France") =
      { result := ("NO FROM MODEL"),
        genPrompts := [WebSearchAgent.shouldSearchPrompt ("capital of France"),
                       ("capital of France")],
        chatCalls := [], searchCalls := [] } :=
  run_direct_answer
    { gen := fun _ => ("NO FROM MODEL"), chatFn := fun _ => ("c"),
      scrape := fun _ => JsVal.vobj [] } ("capital of France")
    (by decide) (by decide)

/-- C10: `WebSearchTool._call` independently re-validates its input — an
empty or whitespace-only input returns the fixed invalid-query string with
no scraper call, and any other input invokes the scraper exactly once with
the trimmed input. -/
theorem tool_call_validation (scrape : String → JsVal) (q : String) :
    ((jsTrim q).isEmpty = true →
        WebSearchTool.call scrape q
          = (("Error: Invalid search query provided."), []))
    ∧ ((jsTrim q).isEmpty = false →
        (WebSearchTool.call scrape q).2 = [jsTrim q]) := by
  constructor
  · intro h
    simp [WebSearchTool.call, h]
  · intro h
    simp [WebSearchTool.call, h, apply_ite Prod.snd]

/-- C10 witness: a whitespace input is rejected without a scraper call; a
real input reaches the scraper once, trimmed. -/
theorem tool_call_validation_witness :
    WebSearchTool.call (fun _ => JsVal.vobj []) ("  ")
        = (("Error: Invalid search query provided."), [])
    ∧ (WebSearchTool.call (fun _ => JsVal.vobj []) (" hi ")).2 = [("hi")] :=
  ⟨(tool_call_validation (fun _ => JsVal.vobj []) ("  ")).1 (by decide),
   ((tool_call_validation (fun _ => JsVal.vobj []) (" hi ")).2 (by decide)).trans
     (by decide)⟩
